import Mathlib

/-!
# Verification of `ai-commit.py`

A shallow embedding of the `git ai-commit` utility (a single Python script).
Pure computations (prefix detection, profile construction, flag scanning,
JSON-document encoding) are translated directly; the effectful main flow is
modelled as a function from an explicit environment record (results of the
external `git` invocations, the AI completion, the interactive answer, the
filesystem) to an outcome record collecting the exit code and every external
effect the run issues (generator calls, commit invocations, history fetches,
cache writes).

String primitives (`splitlines`, `startswith`, `strip`-emptiness) are
implemented over the character list of the string so that all definitions
evaluate by kernel reduction.
-/

/-- `s.startswith(p)` — `p` is a character-list prefix of `s`. -/
def strStartsWith (s p : String) : Bool :=
  p.toList.isPrefixOf s.toList

/-- Python `s.strip()` is falsy — every character of `s` is whitespace. -/
def isBlankLine (s : String) : Bool :=
  s.toList.all Char.isWhitespace

/-- `raw.splitlines()` for newline-separated text: split the character list
at each `'\n'`.  (Python's `splitlines` drops a trailing empty final line
where this keeps it, but `analyze_repo` filters blank lines immediately, so
the two readings agree after the filter.) -/
def splitLinesAux : List Char → List Char → List String
  | [], acc => [String.mk acc.reverse]
  | c :: cs, acc =>
      if c = '\n' then String.mk acc.reverse :: splitLinesAux cs []
      else splitLinesAux cs (c :: acc)

/-- Split a string into its newline-separated lines. -/
def splitLines (s : String) : List String :=
  splitLinesAux s.toList []

/-- `sep.join(xs)`. -/
def joinSep (sep : String) : List String → String
  | [] => ""
  | [x] => x
  | x :: xs => x ++ sep ++ joinSep sep xs

/-- Characters accepted by the leading-token pattern `[A-Za-z0-9_-]` used in
`analyze_repo`'s conventional-prefix detection. -/
def isPrefixChar (c : Char) : Bool :=
  (('A' ≤ c && c ≤ 'Z') || ('a' ≤ c && c ≤ 'z') || ('0' ≤ c && c ≤ '9')
    || c = '_' || c = '-')

/-- The regex match `^(?P<name>[A-Za-z0-9_-]+):` from `analyze_repo`:
the maximal leading run of token characters must be nonempty and be followed
immediately by a colon.  (Backtracking a greedy `+` can never help here: any
shorter leading token is followed by a token character, not `:`.) -/
def prefixMatch (s : String) : Option String :=
  let tok := s.toList.takeWhile isPrefixChar
  if tok = [] then none
  else
    match s.toList.drop tok.length with
    | ':' :: _ => some (String.mk tok)
    | _ => none

/-- Counter update `prefixes[p] = prefixes.get(p, 0) + 1` on an
insertion-ordered association list (the Python `dict`). -/
def bump : List (String × Nat) → String → List (String × Nat)
  | [], k => [(k, 1)]
  | (k', n) :: rest, k =>
      if k' = k then (k', n + 1) :: rest else (k', n) :: bump rest k

/-- One iteration of the `for s in subjects` loop in `analyze_repo`. -/
def bumpSubject (h : List (String × Nat)) (s : String) : List (String × Nat) :=
  match prefixMatch s with
  | some p => bump h p
  | none => h

/-- Lookup of a count in the histogram (0 when the key is absent). -/
def countOf : List (String × Nat) → String → Nat
  | [], _ => 0
  | (k', n) :: rest, k => if k' = k then n else countOf rest k

/-- Stable descending insertion by count: models Python's stable
`sorted(..., key=lambda x: x[1], reverse=True)`; an element is placed after
every earlier element whose count is greater than or equal to its own. -/
def insertDesc (x : String × Nat) : List (String × Nat) → List (String × Nat)
  | [] => [x]
  | y :: ys => if x.2 ≤ y.2 then y :: insertDesc x ys else x :: y :: ys

/-- `sorted(prefixes.items(), key=lambda x: x[1], reverse=True)`. -/
def sortDescByCount (l : List (String × Nat)) : List (String × Nat) :=
  l.foldl (fun acc x => insertDesc x acc) []

/-- The persisted style profile (`profile` dict built in `analyze_repo`).
`commit_guidelines` is the optional key set by the guidelines-caching step;
a freshly analyzed profile does not carry it. -/
structure Profile where
  created_at : String
  commit_count_scanned : Nat
  history_examples : List String
  detected_types : List (String × Nat)
  top_prefixes : List String
  avg_subject_len : Rat
  commit_guidelines : Option String := none
deriving DecidableEq, Repr

/-- The pure core of `analyze_repo`: from the raw `git log -n <depth>
--pretty=format:%s` output, split into lines, drop blank subjects, build the
prefix histogram, rank prefixes, keep the first 25 subjects as examples and
the mean subject length.  `now` is the `datetime.utcnow().isoformat()`
timestamp. -/
def build_profile (now raw : String) : Profile :=
  let subjects := (splitLines raw).filter (fun s => !(isBlankLine s))
  let count := subjects.length
  let prefixes := subjects.foldl bumpSubject []
  let sorted_prefixes := sortDescByCount prefixes
  let top10 := (sorted_prefixes.take 10).map Prod.fst
  let avg : Rat :=
    if count > 0 then ((subjects.map String.length).sum : Rat) / (count : Rat)
    else 0
  { created_at := now ++ "Z"
    commit_count_scanned := count
    history_examples := subjects.take 25
    detected_types := prefixes
    top_prefixes := top10
    avg_subject_len := avg
    commit_guidelines := none }

/-- `has_message_flag` from `main`: scans the forwarded argument list for a
message-specifying flag (`-m`, `-F`, `--message`, `--file`, attached-value
forms included). -/
def has_message_flag : List String → Bool
  | [] => false
  | a :: rest =>
      if a = "-m" || strStartsWith a "-m" then true
      else if a = "-F" || strStartsWith a "-F" then true
      else if a = "--message" || strStartsWith a "--message" then true
      else if a = "--file" || strStartsWith a "--file" then true
      else has_message_flag rest

/-! ## The persisted JSON document (style cache file)

`save_style_cache` serializes the profile dict with `json.dump`;
`load_style_cache` parses it back with `json.load` (returning `None` on any
failure).  We model the cache file's contents at the level of the JSON
document the serializer is trusted to round-trip, and the filesystem as a
map from paths to stored documents. -/

/-- A JSON value; numbers are exact rationals (the only numbers the profile
stores are naturals and the exact mean subject length). -/
inductive JValue where
  | jnull : JValue
  | jbool : Bool → JValue
  | jnum : Rat → JValue
  | jstr : String → JValue
  | jarr : List JValue → JValue
  | jobj : List (String × JValue) → JValue

/-- First-match key lookup in a JSON object. -/
def jlookup : List (String × JValue) → String → Option JValue
  | [], _ => none
  | (k', v) :: rest, k => if k' = k then some v else jlookup rest k

/-- Serialize a profile to the JSON document `json.dump` writes: the six
dict keys in insertion order, plus `commit_guidelines` when present. -/
def encodeProfile (p : Profile) : JValue :=
  .jobj
    ([("created_at", .jstr p.created_at),
      ("commit_count_scanned", .jnum p.commit_count_scanned),
      ("history_examples", .jarr (p.history_examples.map .jstr)),
      ("detected_types", .jobj (p.detected_types.map (fun kv => (kv.1, .jnum kv.2)))),
      ("top_prefixes", .jarr (p.top_prefixes.map .jstr)),
      ("avg_subject_len", .jnum p.avg_subject_len)] ++
     (match p.commit_guidelines with
      | some g => [("commit_guidelines", .jstr g)]
      | none => []))

/-- Read a natural-number JSON value. -/
def decodeNat : JValue → Option Nat
  | .jnum q => if q.den = 1 ∧ 0 ≤ q.num then some q.num.toNat else none
  | _ => none

/-- Read a list of JSON strings. -/
def decodeStringList : List JValue → Option (List String)
  | [] => some []
  | .jstr s :: rest =>
      match decodeStringList rest with
      | some l => some (s :: l)
      | none => none
  | _ :: _ => none

/-- Read a JSON object of natural-number counts. -/
def decodeCountList : List (String × JValue) → Option (List (String × Nat))
  | [] => some []
  | (k, v) :: rest =>
      match decodeNat v, decodeCountList rest with
      | some n, some l => some ((k, n) :: l)
      | _, _ => none

/-- Interpret a parsed JSON document as a style profile (the shape
`analyze_repo` and the guidelines-caching step write). -/
def decodeProfile (j : JValue) : Option Profile :=
  match j with
  | .jobj fields =>
    match jlookup fields "created_at", jlookup fields "commit_count_scanned",
          jlookup fields "history_examples", jlookup fields "detected_types",
          jlookup fields "top_prefixes", jlookup fields "avg_subject_len" with
    | some (.jstr ca), some cnt, some (.jarr hx), some (.jobj dt),
      some (.jarr tp), some (.jnum avg) =>
      match decodeNat cnt, decodeStringList hx, decodeCountList dt,
            decodeStringList tp with
      | some n, some hxs, some dts, some tps =>
        match jlookup fields "commit_guidelines" with
        | none => some ⟨ca, n, hxs, dts, tps, avg, none⟩
        | some (.jstr g) => some ⟨ca, n, hxs, dts, tps, avg, some g⟩
        | some _ => none
      | _, _, _, _ => none
    | _, _, _, _, _, _ => none
  | _ => none

/-- The filesystem visible to the cache: stored JSON documents by path. -/
def CacheFS : Type := String → Option JValue

/-- `save_style_cache(path, profile)`: write the serialized profile at the
path (directory creation and the non-fatal write-failure branch are the
environment's concern; this is the successful write). -/
def save_style_cache (fs : CacheFS) (path : String) (p : Profile) : CacheFS :=
  fun q => if q = path then some (encodeProfile p) else fs q

/-- `load_style_cache(path)`: parse the stored document back into a profile;
absent file or a document of the wrong shape yields `none` (the function
returns `None` on any exception). -/
def load_style_cache (fs : CacheFS) (path : String) : Option Profile :=
  match fs path with
  | none => none
  | some j => decodeProfile j

/-! ## The main control flow

`main` is modelled as a function of the parsed arguments and an environment
record supplying every external observation the run can make.  The result is
an outcome record: the process exit code and the externally visible effects
(history fetches, cache-write attempts, generator invocations, commit
invocations). -/

/-- The recognized command-line options (`parse_known_args` namespace) plus
the unrecognized arguments forwarded to `git commit`. -/
structure Args where
  auto_commit : Bool := false
  dry_run : Bool := false
  analyze : Bool := false
  history_depth : Int := 1000
  cache_file : String := ".git/ai-commit-style.json"
  force_analyze : Bool := false
  context : Option String := none
  guidelines : Option String := none
  unknown_args : List String := []

/-- The lowered interactive answer to "commit with this message?"
(`interrupt` models `EOFError`/`KeyboardInterrupt` during the prompt). -/
inductive Approval where
  | yes
  | no
  | edit
  | other : String → Approval
  | interrupt
deriving DecidableEq, Repr

/-- The run's external environment: what each outside interaction returns.
For the `run_command` results, `none` means the command exited non-zero. -/
structure Env where
  isRepo : Bool
  stagedDiff : Option String
  logDepth : Int → Option String
  cache : Option Profile
  fetchUrl : String → Option String
  fileExists : String → Bool
  readFile : String → Option String
  genResult : Option String
  approval : Approval
  tmpName : String
  editExit : Nat
  commitOk : Bool
  lastLog : Option String
  now : String

/-- One `git commit` invocation: the argument vector and the generated
message handed to it, if any (via the stdin message-file convention `-F -`
or via the temporary message file of the edit path). -/
structure CommitCall where
  cmd : List String
  message : Option String
deriving DecidableEq, Repr

/-- One invocation of `generate_commit_message`, with the four arguments the
orchestrator passes. -/
structure GenCall where
  diff : String
  history : String
  context : Option String
  guidelines : Option String
deriving DecidableEq, Repr

/-- The observable outcome of a run. -/
structure Outcome where
  exitCode : Nat
  generatorCalls : List GenCall
  presented : Bool
  commits : List CommitCall
  logCalls : List Int
  cacheWrites : List (String × Profile)
deriving DecidableEq, Repr

/-- A run that stops before any external effect, with the given exit code. -/
def exitOutcome (c : Nat) : Outcome :=
  { exitCode := c, generatorCalls := [], presented := false, commits := []
    logCalls := [], cacheWrites := [] }

/-- `analyze_repo(history_depth, cache_file)`: fetch the subjects (a failed
`git log` is caught and treated as empty output), build the profile, attempt
the cache write.  Returns the profile together with the history fetch and
cache-write events. -/
def analyze_repo (env : Env) (history_depth : Int) (cache_file : String) :
    Profile × List Int × List (String × Profile) :=
  let raw := (env.logDepth history_depth).getD ""
  let p := build_profile env.now raw
  (p, [history_depth], [(cache_file, p)])

/-- Line 405 of the script: `profile['commit_guidelines'] = guidelines_text`. -/
def mergeGuidelines (p : Profile) (text : String) : Profile :=
  { p with commit_guidelines := some text }

/-- The syntactic classification and resolution of a `--guidelines`
reference: an `http(s)` reference is fetched, an existing local path is
read, anything else is inline text.  `none` is the fatal `sys.exit(1)` on a
failed fetch or read. -/
def resolve_guidelines (env : Env) (raw : String) : Option String :=
  if strStartsWith raw "http://" || strStartsWith raw "https://" then
    env.fetchUrl raw
  else if env.fileExists raw then
    env.readFile raw
  else some raw

/-- Result of the guidelines preparation step. -/
structure GuideRes where
  gtext : Option String
  profile : Option Profile
  logCalls : List Int
  cacheWrites : List (String × Profile)

/-- Lines 370–415 of the script: resolve an explicit `--guidelines`
reference (fatal on fetch/read failure), cache it into the profile (running
a fresh analysis when no profile exists and the depth is nonzero, an empty
dict otherwise), then fall back to the cached `commit_guidelines` whenever
the resolved text is falsy (Python truthiness: `None` or the empty string).
Note the `if getattr(args, 'guidelines', None):` guard skips the whole
resolution block when the argument is absent or the empty string. -/
def guidelines_step (env : Env) (args : Args) (profile : Option Profile) :
    Except Nat GuideRes :=
  match args.guidelines with
  | none =>
      .ok { gtext := profile.bind Profile.commit_guidelines, profile := profile
            logCalls := [], cacheWrites := [] }
  | some raw =>
    if raw = "" then
      .ok { gtext := profile.bind Profile.commit_guidelines, profile := profile
            logCalls := [], cacheWrites := [] }
    else
      match resolve_guidelines env raw with
      | none => .error 1
      | some text =>
        let base :=
          match profile with
          | some p => (p, ([] : List Int), ([] : List (String × Profile)))
          | none =>
            if args.history_depth ≠ 0 then
              analyze_repo env args.history_depth args.cache_file
            else
              ({ created_at := "", commit_count_scanned := 0
                 history_examples := [], detected_types := []
                 top_prefixes := [], avg_subject_len := 0
                 commit_guidelines := none }, [], [])
        let prof := mergeGuidelines base.1 text
        let gtext :=
          if text = "" then prof.commit_guidelines else some text
        .ok { gtext := gtext, profile := some prof
              logCalls := base.2.1
              cacheWrites := base.2.2 ++ [(args.cache_file, prof)] }

/-- Result of the decide/commit phase: exit code, the commit invocations
issued, and any trailing `git log -n 1` display fetch. -/
structure DecideRes where
  exitCode : Nat
  commits : List CommitCall
  extraLogCalls : List Int
deriving DecidableEq, Repr

/-- The interactive-edit path (lines 438–475): the suggestion is written to
a temporary file and `git commit -e -F <tmp>` is run with the forwarded
arguments appended; the editor invocation's exit status becomes the
process's own, and a successful commit displays `git log -n 1` (whose
failure exits 1). -/
def edit_exec (args : Args) (env : Env) (msg : String) : DecideRes :=
  let call : CommitCall :=
    { cmd := ["git", "commit", "-e", "-F", env.tmpName] ++ args.unknown_args
      message := some msg }
  if env.editExit = 0 then
    match env.lastLog with
    | some _ => { exitCode := 0, commits := [call], extraLogCalls := [1] }
    | none => { exitCode := 1, commits := [call], extraLogCalls := [1] }
  else { exitCode := env.editExit, commits := [call], extraLogCalls := [] }

/-- The commit execution (lines 484–542): when the forwarded arguments
already carry a message flag they are passed through unchanged and no
message is supplied; otherwise the generated message is fed on stdin via
`-F -`.  A failed commit exits 1; a successful one displays `git log -n 1`
(whose failure exits 1). -/
def commit_exec (args : Args) (env : Env) (msg : String) : DecideRes :=
  let cargs := args.unknown_args
  let call : CommitCall :=
    if has_message_flag cargs then
      { cmd := ["git", "commit"] ++ cargs, message := none }
    else
      { cmd := ["git", "commit"] ++ cargs ++ ["-F", "-"], message := some msg }
  if env.commitOk then
    match env.lastLog with
    | some _ => { exitCode := 0, commits := [call], extraLogCalls := [1] }
    | none => { exitCode := 1, commits := [call], extraLogCalls := [1] }
  else { exitCode := 1, commits := [call], extraLogCalls := [] }

/-- The decide phase (lines 430–545): `should_commit` starts as
`--auto-commit`; the interactive prompt runs only when neither `--dry-run`
nor `should_commit` holds (interrupt exits 1; `e` runs the edit path and
exits there; `y` accepts; anything else declines); then `--dry-run` exits 0,
an accepted run commits, and a declined run falls through to exit 0. -/
def decide_phase (args : Args) (env : Env) (msg : String) : DecideRes :=
  let step : Except DecideRes Bool :=
    if !args.dry_run && !args.auto_commit then
      match env.approval with
      | .interrupt => .error { exitCode := 1, commits := [], extraLogCalls := [] }
      | .edit => .error (edit_exec args env msg)
      | .yes => .ok true
      | .no => .ok false
      | .other _ => .ok false
    else .ok args.auto_commit
  match step with
  | .error r => r
  | .ok sc =>
    if args.dry_run then { exitCode := 0, commits := [], extraLogCalls := [] }
    else if sc then commit_exec args env msg
    else { exitCode := 0, commits := [], extraLogCalls := [] }

/-- Result of the history-preparation step. -/
structure HistPrep where
  profile : Option Profile
  commit_history : String
  logCalls : List Int
  cacheWrites : List (String × Profile)

/-- Lines 346–368: choose a cached profile (unless `--force-analyze`), else
a forced fresh analysis, else the lightweight 10-commit fetch whose failure
degrades to the "no previous commits" placeholder. -/
def history_prepare (env : Env) (args : Args) : HistPrep :=
  let profile0 : Option Profile :=
    if args.force_analyze then none else env.cache
  match profile0 with
  | some p =>
    let summary :=
      if p.top_prefixes ≠ [] then
        "Detected prefixes: " ++ joinSep ", " (p.top_prefixes.take 5) ++ "\n"
      else ""
    { profile := some p
      commit_history := summary ++ joinSep "\n" p.history_examples
      logCalls := [], cacheWrites := [] }
  | none =>
    if args.force_analyze then
      let r := analyze_repo env args.history_depth args.cache_file
      { profile := some r.1
        commit_history := joinSep "\n" r.1.history_examples
        logCalls := r.2.1, cacheWrites := r.2.2 }
    else
      match env.logDepth 10 with
      | some s =>
          { profile := none, commit_history := s
            logCalls := [10], cacheWrites := [] }
      | none =>
          { profile := none
            commit_history :=
              "No previous commits found. This is likely the initial commit."
            logCalls := [10], cacheWrites := [] }

/-- The whole of `main` after argument parsing: repository check, staged
diff fetch (empty diff is a clean exit 0), the standalone `--analyze` exit,
history preparation, guidelines preparation, message generation, and the
decide phase. -/
def mainRun (args : Args) (env : Env) : Outcome :=
  if !env.isRepo then exitOutcome 1
  else
    match env.stagedDiff with
    | none => exitOutcome 1
    | some diff =>
      if diff = "" then exitOutcome 0
      else if args.analyze then
        let r := analyze_repo env args.history_depth args.cache_file
        { exitCode := 0, generatorCalls := [], presented := false
          commits := [], logCalls := r.2.1, cacheWrites := r.2.2 }
      else
        let hp := history_prepare env args
        match guidelines_step env args hp.profile with
        | .error c =>
          { exitCode := c, generatorCalls := [], presented := false
            commits := [], logCalls := hp.logCalls
            cacheWrites := hp.cacheWrites }
        | .ok g =>
          let gcall : GenCall :=
            { diff := diff, history := hp.commit_history
              context := args.context, guidelines := g.gtext }
          match env.genResult with
          | none =>
            { exitCode := 1, generatorCalls := [gcall], presented := false
              commits := [], logCalls := hp.logCalls ++ g.logCalls
              cacheWrites := hp.cacheWrites ++ g.cacheWrites }
          | some msg =>
            let d := decide_phase args env msg
            { exitCode := d.exitCode, generatorCalls := [gcall]
              presented := true, commits := d.commits
              logCalls := hp.logCalls ++ g.logCalls ++ d.extraLogCalls
              cacheWrites := hp.cacheWrites ++ g.cacheWrites }

/-! ## Sample inputs used by the witnesses and counterexamples -/

/-- A benign environment for a run with a one-line staged diff. -/
def baseEnv : Env :=
  { isRepo := true, stagedDiff := some "+x", logDepth := fun _ => none,
    cache := none, fetchUrl := fun _ => none, fileExists := fun _ => false,
    readFile := fun _ => none, genResult := some "MSG", approval := .no,
    tmpName := "/tmp/ai-commit-msg", editExit := 0, commitOk := true,
    lastLog := some "deadbee subject", now := "2026-01-01T00:00:00" }

/-- A cached style profile whose `commit_guidelines` key is set. -/
def cachedProfile : Profile :=
  { created_at := "2025-12-31T00:00:00Z", commit_count_scanned := 2,
    history_examples := ["feat: a", "fix: b"],
    detected_types := [("feat", 1), ("fix", 1)],
    top_prefixes := ["feat", "fix"], avg_subject_len := 7,
    commit_guidelines := some "X" }

/-! ## Claims -/

/-- C2: for every invocation whose staged diff is empty, the process exits
with code 0 (after the explanatory message) and the Message Generator is
never invoked. -/
theorem C2_empty_diff_exits_zero_without_generation (args : Args) (env : Env)
    (hrepo : env.isRepo = true) (hdiff : env.stagedDiff = some "") :
    (mainRun args env).exitCode = 0 ∧
    (mainRun args env).generatorCalls = [] := by
  simp [mainRun, hrepo, hdiff, exitOutcome]

theorem C2_witness :
    (mainRun {} { baseEnv with stagedDiff := some "" }).exitCode = 0 ∧
    (mainRun {} { baseEnv with stagedDiff := some "" }).generatorCalls = [] :=
  C2_empty_diff_exits_zero_without_generation {}
    { baseEnv with stagedDiff := some "" } rfl rfl

/-- C10: the `--analyze` operation only runs on a non-empty staged diff;
with an empty staged diff the process exits 0 without any history fetch and
without writing the style cache. -/
theorem C10_analyze_empty_diff_no_scan (args : Args) (env : Env)
    (hana : args.analyze = true) (hrepo : env.isRepo = true)
    (hdiff : env.stagedDiff = some "") :
    (mainRun args env).exitCode = 0 ∧
    (mainRun args env).logCalls = [] ∧
    (mainRun args env).cacheWrites = [] := by
  simp [mainRun, hrepo, hdiff, exitOutcome]

theorem C10_witness :
    (mainRun { analyze := true } { baseEnv with stagedDiff := some "" }).exitCode = 0 ∧
    (mainRun { analyze := true } { baseEnv with stagedDiff := some "" }).logCalls = [] ∧
    (mainRun { analyze := true } { baseEnv with stagedDiff := some "" }).cacheWrites = [] :=
  C10_analyze_empty_diff_no_scan { analyze := true }
    { baseEnv with stagedDiff := some "" } rfl rfl rfl

/-- C3: with a non-empty staged diff and `--dry-run`, no `git commit`
invocation is ever issued — whatever `--auto-commit` or the interactive
answer would be — and whenever the suggestion is presented the process exits
with code 0. -/
theorem C3_dry_run_never_commits (args : Args) (env : Env) (d : String)
    (hrepo : env.isRepo = true) (hdiff : env.stagedDiff = some d)
    (hne : d ≠ "") (hdry : args.dry_run = true) :
    (mainRun args env).commits = [] ∧
    ((mainRun args env).presented = true → (mainRun args env).exitCode = 0) := by
  unfold mainRun
  rw [hrepo, hdiff]
  simp only [Bool.not_true, Bool.false_eq_true, if_false, if_neg hne]
  cases hana : args.analyze with
  | true => simp
  | false =>
    simp only [if_false, Bool.false_eq_true]
    cases hgs : guidelines_step env args (history_prepare env args).profile with
    | error c => simp
    | ok g =>
      cases hgen : env.genResult with
      | none => simp
      | some msg => simp [decide_phase, hdry]

theorem C3_witness :
    (mainRun { dry_run := true, auto_commit := true }
      { baseEnv with approval := .yes }).commits = [] ∧
    (mainRun { dry_run := true, auto_commit := true }
      { baseEnv with approval := .yes }).exitCode = 0 :=
  ⟨(C3_dry_run_never_commits { dry_run := true, auto_commit := true }
      { baseEnv with approval := .yes } "+x" rfl rfl (by decide) rfl).1,
   (C3_dry_run_never_commits { dry_run := true, auto_commit := true }
      { baseEnv with approval := .yes } "+x" rfl rfl (by decide) rfl).2
     (by decide)⟩

/-- On the commit-execution path, a message flag among the forwarded
arguments suppresses the injection and passes the arguments through. -/
theorem commit_exec_message_flag (args : Args) (env : Env) (msg : String)
    (hflag : has_message_flag args.unknown_args = true) :
    ∀ c ∈ (commit_exec args env msg).commits,
      c.message = none ∧ c.cmd = ["git", "commit"] ++ args.unknown_args := by
  intro c hc
  cases hok : env.commitOk <;> cases hl : env.lastLog <;>
    simp [commit_exec, hflag, hok, hl] at hc <;>
    (subst hc; exact ⟨rfl, rfl⟩)

/-- On the decide phase, excluding the interactive-edit answer, any commit
issued with a message flag among the forwarded arguments carries no injected
message and passes the arguments through. -/
theorem decide_phase_message_flag (args : Args) (env : Env) (msg : String)
    (hflag : has_message_flag args.unknown_args = true)
    (hedit : env.approval ≠ .edit) :
    ∀ c ∈ (decide_phase args env msg).commits,
      c.message = none ∧ c.cmd = ["git", "commit"] ++ args.unknown_args := by
  intro c hc
  cases hdry : args.dry_run <;> cases hauto : args.auto_commit <;>
    cases happ : env.approval <;>
    simp only [decide_phase, hdry, hauto, happ, Bool.not_true, Bool.not_false,
      Bool.and_self, Bool.true_and, Bool.false_and, Bool.and_false, if_true,
      if_false, Bool.false_eq_true, Bool.true_eq_false, ite_true, ite_false] at hc <;>
    first
      | exact absurd happ hedit
      | exact commit_exec_message_flag args env msg hflag c hc
      | simp at hc

/-- C1 (counterexample): on the interactive-edit path the generated message
is always injected via the temporary message file, even when the forwarded
arguments already contain `-m`. -/
theorem C1_counterexample :
    has_message_flag ["-m", "x"] = true ∧
    (mainRun { unknown_args := ["-m", "x"] }
       { baseEnv with cache := some cachedProfile, approval := .edit }).commits =
      [{ cmd := ["git", "commit", "-e", "-F", "/tmp/ai-commit-msg", "-m", "x"],
         message := some "MSG" }] := by
  decide

/-- C1 (amended): on every commit-issuing path other than the
interactive-edit answer — auto-commit and interactive accept — a
message-specifying flag among the forwarded arguments suppresses the
generated-message injection and the forwarded arguments are passed through
to `git commit` unmodified. -/
theorem C1_amended_flag_suppresses_injection (args : Args) (env : Env)
    (hflag : has_message_flag args.unknown_args = true)
    (hedit : env.approval ≠ .edit) :
    ∀ c ∈ (mainRun args env).commits,
      c.message = none ∧ c.cmd = ["git", "commit"] ++ args.unknown_args := by
  unfold mainRun
  cases hrepo : env.isRepo with
  | false => simp [exitOutcome]
  | true =>
    cases hdiff : env.stagedDiff with
    | none => simp [exitOutcome]
    | some diff =>
      by_cases hd : diff = ""
      · simp [hd, exitOutcome]
      · simp only [if_neg hd, Bool.not_true, Bool.false_eq_true, if_false]
        cases hana : args.analyze with
        | true => simp
        | false =>
          simp only [Bool.false_eq_true, if_false]
          cases hgs : guidelines_step env args (history_prepare env args).profile with
          | error c => simp
          | ok g =>
            cases hgen : env.genResult with
            | none => simp
            | some msg =>
              intro c hc
              simp only [] at hc
              exact decide_phase_message_flag args env msg hflag hedit c hc

theorem C1_witness :
    ({ cmd := ["git", "commit", "-m", "x"], message := none } : CommitCall).message
        = none ∧
    ({ cmd := ["git", "commit", "-m", "x"], message := none } : CommitCall).cmd
        = ["git", "commit"] ++ ["-m", "x"] :=
  C1_amended_flag_suppresses_injection
    { auto_commit := true, unknown_args := ["-m", "x"] }
    { baseEnv with cache := some cachedProfile } (by decide) (by decide)
    { cmd := ["git", "commit", "-m", "x"], message := none } (by decide)

/-- C9: a remote guidelines reference whose fetch fails, or an existing
local file whose read fails, terminates the run with exit code 1 and the
Message Generator is never invoked. -/
theorem C9_guidelines_failure_is_fatal (args : Args) (env : Env) (raw d : String)
    (hrepo : env.isRepo = true) (hdiff : env.stagedDiff = some d) (hd : d ≠ "")
    (hana : args.analyze = false) (hg : args.guidelines = some raw)
    (hfail :
      ((strStartsWith raw "http://" || strStartsWith raw "https://") = true ∧
        env.fetchUrl raw = none) ∨
      ((strStartsWith raw "http://" || strStartsWith raw "https://") = false ∧
        raw ≠ "" ∧ env.fileExists raw = true ∧ env.readFile raw = none)) :
    (mainRun args env).exitCode = 1 ∧ (mainRun args env).generatorCalls = [] := by
  have hraw : raw ≠ "" := by
    rcases hfail with ⟨h1, _⟩ | ⟨_, h2, _, _⟩
    · intro he; subst he; exact absurd h1 (by decide)
    · exact h2
  have hres : resolve_guidelines env raw = none := by
    rcases hfail with ⟨h1, h2⟩ | ⟨h1, _, h3, h4⟩
    · simp [resolve_guidelines, h1, h2]
    · simp [resolve_guidelines, h1, h3, h4]
  have hgs : guidelines_step env args (history_prepare env args).profile = .error 1 := by
    simp [guidelines_step, hg, hraw, hres]
  unfold mainRun
  rw [hrepo, hdiff]
  simp [hd, hana, hgs]

theorem C9_witness :
    (mainRun { guidelines := some "https://example.com/g" } baseEnv).exitCode = 1 ∧
    (mainRun { guidelines := some "https://example.com/g" } baseEnv).generatorCalls = [] :=
  C9_guidelines_failure_is_fatal { guidelines := some "https://example.com/g" }
    baseEnv "https://example.com/g" "+x" rfl rfl (by decide) rfl rfl
    (Or.inl ⟨by decide, rfl⟩)

/-- C7 (counterexample): with `--guidelines ""` (an explicit argument whose
syntactic classification is inline text resolving to the empty string) and a
cached guidelines value `"X"`, the Generator receives the cached value, not
the resolved explicit one: Python's truthiness guard skips the whole
resolution block for the empty argument. -/
theorem C7_counterexample :
    resolve_guidelines { baseEnv with cache := some cachedProfile } "" = some "" ∧
    (mainRun { guidelines := some "" }
        { baseEnv with cache := some cachedProfile }).generatorCalls.map
      GenCall.guidelines = [some "X"] ∧
    (some "X" : Option String) ≠ some "" := by
  decide

/-- C7 (amended): for every non-empty explicit `--guidelines` argument whose
resolution succeeds, the text passed to the Message Generator as guidelines
is the resolved explicit value, even when the loaded profile already carries
a cached guidelines value. -/
theorem C7_amended_explicit_guidelines_win (args : Args) (env : Env)
    (raw text d : String) (p : Profile)
    (hrepo : env.isRepo = true) (hdiff : env.stagedDiff = some d) (hd : d ≠ "")
    (hana : args.analyze = false) (hforce : args.force_analyze = false)
    (hcache : env.cache = some p) (hcg : p.commit_guidelines.isSome = true)
    (hg : args.guidelines = some raw) (hraw : raw ≠ "")
    (hres : resolve_guidelines env raw = some text) :
    (mainRun args env).generatorCalls.map GenCall.guidelines = [some text] := by
  have hhp : (history_prepare env args).profile = some p := by
    simp [history_prepare, hforce, hcache]
  have hgs : guidelines_step env args (history_prepare env args).profile =
      .ok { gtext := some text, profile := some (mergeGuidelines p text),
            logCalls := [],
            cacheWrites := [(args.cache_file, mergeGuidelines p text)] } := by
    rw [hhp]
    simp only [guidelines_step, hg, if_neg hraw, hres]
    by_cases ht : text = "" <;> simp [ht, mergeGuidelines]
  unfold mainRun
  rw [hrepo, hdiff]
  simp only [if_neg hd, hana, Bool.false_eq_true, if_false, Bool.not_true]
  rw [hgs]
  cases hgen : env.genResult <;> simp

theorem C7_witness :
    (mainRun { guidelines := some "G" }
        { baseEnv with cache := some cachedProfile }).generatorCalls.map
      GenCall.guidelines = [some "G"] :=
  C7_amended_explicit_guidelines_win { guidelines := some "G" }
    { baseEnv with cache := some cachedProfile } "G" "G" "+x" cachedProfile
    rfl rfl (by decide) rfl rfl rfl rfl rfl (by decide) rfl

/-- C8: caching resolved guidelines into an existing profile updates only
the `commit_guidelines` field and persists exactly that updated profile;
`created_at`, `commit_count_scanned`, `history_examples`, `detected_types`,
`top_prefixes` and `avg_subject_len` are left unchanged. -/
theorem C8_merge_preserves_other_fields (env : Env) (args : Args)
    (raw text : String) (p : Profile)
    (hg : args.guidelines = some raw) (hraw : raw ≠ "")
    (hres : resolve_guidelines env raw = some text) :
    guidelines_step env args (some p) =
      .ok { gtext := some text, profile := some (mergeGuidelines p text),
            logCalls := [],
            cacheWrites := [(args.cache_file, mergeGuidelines p text)] } ∧
    (mergeGuidelines p text).commit_guidelines = some text ∧
    (mergeGuidelines p text).created_at = p.created_at ∧
    (mergeGuidelines p text).commit_count_scanned = p.commit_count_scanned ∧
    (mergeGuidelines p text).history_examples = p.history_examples ∧
    (mergeGuidelines p text).detected_types = p.detected_types ∧
    (mergeGuidelines p text).top_prefixes = p.top_prefixes ∧
    (mergeGuidelines p text).avg_subject_len = p.avg_subject_len := by
  refine ⟨?_, rfl, rfl, rfl, rfl, rfl, rfl, rfl⟩
  simp only [guidelines_step, hg, if_neg hraw, hres]
  by_cases ht : text = "" <;> simp [ht, mergeGuidelines]

theorem C8_witness :
    guidelines_step baseEnv { guidelines := some "G" } (some cachedProfile) =
      .ok { gtext := some "G",
            profile := some (mergeGuidelines cachedProfile "G"),
            logCalls := [],
            cacheWrites := [(".git/ai-commit-style.json",
                             mergeGuidelines cachedProfile "G")] } ∧
    (mergeGuidelines cachedProfile "G").commit_guidelines = some "G" ∧
    (mergeGuidelines cachedProfile "G").created_at = cachedProfile.created_at ∧
    (mergeGuidelines cachedProfile "G").commit_count_scanned =
      cachedProfile.commit_count_scanned ∧
    (mergeGuidelines cachedProfile "G").history_examples =
      cachedProfile.history_examples ∧
    (mergeGuidelines cachedProfile "G").detected_types =
      cachedProfile.detected_types ∧
    (mergeGuidelines cachedProfile "G").top_prefixes =
      cachedProfile.top_prefixes ∧
    (mergeGuidelines cachedProfile "G").avg_subject_len =
      cachedProfile.avg_subject_len :=
  C8_merge_preserves_other_fields baseEnv { guidelines := some "G" } "G" "G"
    cachedProfile rfl (by decide) rfl

/-- C4: analyzing a history whose log output splits into `K` non-blank
subjects (with `K ≤ N`, as `git log -n N` guarantees) yields a profile with
`commit_count_scanned = K` and `history_examples` of length `min K 25`,
holding the first subjects verbatim. -/
theorem C4_analyze_counts_and_examples (env : Env) (cache_file : String)
    (N : Int) (K : Nat) (raw : String) (subjects : List String)
    (hlog : env.logDepth N = some raw)
    (hsplit : splitLines raw = subjects)
    (hnb : ∀ s ∈ subjects, isBlankLine s = false)
    (hK : subjects.length = K) (hKN : (K : Int) ≤ N) :
    (analyze_repo env N cache_file).1.commit_count_scanned = K ∧
    (analyze_repo env N cache_file).1.history_examples.length = min K 25 ∧
    (analyze_repo env N cache_file).1.history_examples = subjects.take 25 := by
  have hfilter : (splitLines raw).filter (fun s => !(isBlankLine s)) = subjects := by
    rw [hsplit]
    apply List.filter_eq_self.mpr
    intro a ha
    simp [hnb a ha]
  have hbp : (analyze_repo env N cache_file).1 = build_profile env.now raw := by
    simp [analyze_repo, hlog]
  rw [hbp]
  refine ⟨?_, ?_, ?_⟩
  · show ((splitLines raw).filter (fun s => !(isBlankLine s))).length = K
    rw [hfilter, hK]
  · show (((splitLines raw).filter (fun s => !(isBlankLine s))).take 25).length
        = min K 25
    rw [hfilter, List.length_take, hK]
    omega
  · show ((splitLines raw).filter (fun s => !(isBlankLine s))).take 25
        = subjects.take 25
    rw [hfilter]

theorem C4_witness :
    (analyze_repo
        { baseEnv with
            logDepth := fun n => if n = 5 then some "feat: a\nfix: b\nfix: c" else none }
        5 ".git/ai-commit-style.json").1.commit_count_scanned = 3 ∧
    (analyze_repo
        { baseEnv with
            logDepth := fun n => if n = 5 then some "feat: a\nfix: b\nfix: c" else none }
        5 ".git/ai-commit-style.json").1.history_examples.length = min 3 25 ∧
    (analyze_repo
        { baseEnv with
            logDepth := fun n => if n = 5 then some "feat: a\nfix: b\nfix: c" else none }
        5 ".git/ai-commit-style.json").1.history_examples =
      ["feat: a", "fix: b", "fix: c"].take 25 :=
  C4_analyze_counts_and_examples
    { baseEnv with
        logDepth := fun n => if n = 5 then some "feat: a\nfix: b\nfix: c" else none }
    ".git/ai-commit-style.json" 5 3 "feat: a\nfix: b\nfix: c"
    ["feat: a", "fix: b", "fix: c"] rfl (by decide) (by decide) (by decide)
    (by decide)

/-- Bumping a key increments exactly that key's count. -/
theorem countOf_bump_self (h : List (String × Nat)) (k : String) :
    countOf (bump h k) k = countOf h k + 1 := by
  induction h with
  | nil => simp [bump, countOf]
  | cons x rest ih =>
    obtain ⟨k', n⟩ := x
    by_cases hk : k' = k <;> simp [bump, countOf, hk, ih]

/-- Bumping a key leaves every other key's count unchanged. -/
theorem countOf_bump_ne (h : List (String × Nat)) (k q : String)
    (hq : q ≠ k) :
    countOf (bump h k) q = countOf h q := by
  induction h with
  | nil => simp [bump, countOf, Ne.symm hq]
  | cons x rest ih =>
    obtain ⟨k', n⟩ := x
    by_cases hk : k' = k
    · subst hk
      simp [bump, countOf, Ne.symm hq]
    · simp [bump, countOf, hk, ih]

/-- `takeWhile` over a run of accepted characters stopped by a rejected
one returns exactly the run. -/
theorem takeWhile_append_stop (p : Char → Bool) (tok : List Char) (c : Char)
    (rest : List Char) (htok : ∀ x ∈ tok, p x = true) (hc : p c = false) :
    (tok ++ c :: rest).takeWhile p = tok := by
  induction tok with
  | nil => simp [List.takeWhile_cons, hc]
  | cons a l ih =>
    have ha : p a = true := htok a (by simp)
    simp only [List.cons_append, List.takeWhile_cons, ha, if_true]
    rw [ih (fun x hx => htok x (by simp [hx]))]

/-- Dropping the length of the taken run is dropping the run. -/
theorem drop_length_takeWhile (p : Char → Bool) (l : List Char) :
    l.drop (l.takeWhile p).length = l.dropWhile p := by
  induction l with
  | nil => rfl
  | cons c cs ih =>
    by_cases h : p c <;> simp [List.takeWhile_cons, List.dropWhile_cons, h, ih]

/-- A subject decomposing as a non-empty token of prefix characters followed
by a colon matches the prefix pattern with exactly that token. -/
theorem prefixMatch_eq_some (s : String) (tok rest : List Char)
    (hs : s.toList = tok ++ ':' :: rest) (hne : tok ≠ [])
    (htok : ∀ c ∈ tok, isPrefixChar c = true) :
    prefixMatch s = some (String.mk tok) := by
  unfold prefixMatch
  rw [hs, takeWhile_append_stop isPrefixChar tok ':' rest htok (by decide)]
  simp only [hne, if_false, List.drop_left]

/-- A subject with no colon-terminated leading token does not match the
prefix pattern. -/
theorem prefixMatch_eq_none (s : String)
    (hno : ¬ ∃ tok rest, s.toList = tok ++ ':' :: rest ∧ tok ≠ [] ∧
        ∀ c ∈ tok, isPrefixChar c = true) :
    prefixMatch s = none := by
  cases hp : prefixMatch s with
  | none => rfl
  | some p =>
    exfalso
    apply hno
    unfold prefixMatch at hp
    simp only [] at hp
    split at hp
    · cases hp
    · rename_i h0
      split at hp
      · rename_i tail heq
        refine ⟨s.toList.takeWhile isPrefixChar, tail, ?_, h0, ?_⟩
        · conv_lhs => rw [← List.takeWhile_append_dropWhile (p := isPrefixChar) (l := s.toList)]
          rw [← drop_length_takeWhile isPrefixChar s.toList, heq]
        · intro c hc
          exact List.mem_takeWhile_imp hc
      · cases hp

/-- C5: during analysis, a subject whose leading token of letters, digits,
hyphens or underscores is immediately followed by a colon contributes one
occurrence to exactly that token's count in the histogram, and a subject
with no such colon-terminated leading token contributes to no prefix. -/
theorem C5_prefix_detection (h : List (String × Nat)) (s : String) :
    (∀ tok rest, s.toList = tok ++ ':' :: rest → tok ≠ [] →
        (∀ c ∈ tok, isPrefixChar c = true) →
        countOf (bumpSubject h s) (String.mk tok) =
          countOf h (String.mk tok) + 1 ∧
        ∀ q, q ≠ String.mk tok →
          countOf (bumpSubject h s) q = countOf h q) ∧
    ((¬ ∃ tok rest, s.toList = tok ++ ':' :: rest ∧ tok ≠ [] ∧
        ∀ c ∈ tok, isPrefixChar c = true) → bumpSubject h s = h) := by
  constructor
  · intro tok rest hs hne htok
    have hp := prefixMatch_eq_some s tok rest hs hne htok
    constructor
    · simp [bumpSubject, hp, countOf_bump_self]
    · intro q hq
      simp only [bumpSubject, hp]
      exact countOf_bump_ne h (String.mk tok) q hq
  · intro hno
    simp [bumpSubject, prefixMatch_eq_none s hno]

theorem C5_witness :
    countOf (bumpSubject [("feat", 1)] "feat: add x")
        (String.mk ['f', 'e', 'a', 't']) =
      countOf [("feat", 1)] (String.mk ['f', 'e', 'a', 't']) + 1 ∧
    countOf (bumpSubject [("feat", 1)] "feat: add x") "fix" =
      countOf [("feat", 1)] "fix" :=
  ⟨((C5_prefix_detection [("feat", 1)] "feat: add x").1 ['f', 'e', 'a', 't']
      [' ', 'a', 'd', 'd', ' ', 'x'] (by decide) (by decide) (by decide)).1,
   ((C5_prefix_detection [("feat", 1)] "feat: add x").1 ['f', 'e', 'a', 't']
      [' ', 'a', 'd', 'd', ' ', 'x'] (by decide) (by decide) (by decide)).2
     "fix" (by decide)⟩

/-- A natural number round-trips through its JSON encoding. -/
theorem decodeNat_natCast (n : Nat) : decodeNat (JValue.jnum n) = some n := by
  simp [decodeNat, Rat.den_natCast, Rat.num_natCast]

/-- A list of strings round-trips through its JSON encoding. -/
theorem decodeStringList_map (l : List String) :
    decodeStringList (l.map JValue.jstr) = some l := by
  induction l with
  | nil => rfl
  | cons s rest ih => simp [decodeStringList, ih]

/-- A histogram round-trips through its JSON encoding. -/
theorem decodeCountList_map (l : List (String × Nat)) :
    decodeCountList (l.map (fun kv => (kv.1, JValue.jnum kv.2))) = some l := by
  induction l with
  | nil => rfl
  | cons kv rest ih =>
    obtain ⟨k, n⟩ := kv
    simp [decodeCountList, decodeNat_natCast, ih]

/-- Decoding inverts encoding on every profile. -/
theorem decodeProfile_encodeProfile (p : Profile) :
    decodeProfile (encodeProfile p) = some p := by
  obtain ⟨ca, n, hx, dt, tp, avg, cg⟩ := p
  cases cg <;>
    simp [encodeProfile, decodeProfile, jlookup, decodeNat_natCast,
      decodeStringList_map, decodeCountList_map]

/-- C6: saving a style profile to a cache path and loading from that same
path yields a profile equal to the original. -/
theorem C6_cache_round_trip (fs : CacheFS) (path : String) (p : Profile) :
    load_style_cache (save_style_cache fs path p) path = some p := by
  unfold load_style_cache save_style_cache
  simp [decodeProfile_encodeProfile]
